import Mathlib

/-!
Shallow embedding of `src/smart_commit.py`, a four-stage commit-message
tool: staged-file lister, commit-type classifier, message composer, and
interactive confirmer/committer.  External effects (the two `git`
subprocesses, stdin, stdout, `sys.exit`) are made explicit: subprocess
results and the list of stdin lines are inputs, and the program's
observable behaviour (printed lines, the commit argv, the exit kind)
is the output.  Python exceptions are modelled with `Except`.
-/

namespace SmartCommit

/-- Python exceptions that the program can raise. -/
inductive PyError where
  | fileNotFoundError  -- raised by subprocess.run when the binary is missing
  | nameError          -- raised on evaluating an unbound name
  | eofError           -- raised by input() when stdin is exhausted
  deriving DecidableEq, Repr

/-- Outcome of the external `git diff --cached --name-only` subprocess:
either `subprocess.run` itself raises (binary missing), or the process ran
and produced an exit code and captured stdout. -/
inductive ProcResult where
  | raised
  | ran (returncode : Int) (stdout : String)
  deriving DecidableEq, Repr

/-- Characters stripped by Python `str.strip()` (ASCII whitespace). -/
def isPySpace (c : Char) : Bool :=
  c = ' ' || c = '\t' || c = '\n' || c = '\r' || c = '\x0b' || c = '\x0c'

/-- Python `s.strip()`: drop leading and trailing whitespace. -/
def pyStrip (s : String) : String :=
  String.mk (((s.data.dropWhile isPySpace).reverse.dropWhile isPySpace).reverse)

/-- Python `s.lower()` (ASCII letters, which covers the file paths and
choice strings this program compares). -/
def pyLower (s : String) : String :=
  String.mk (s.data.map Char.toLower)

/-- Python `s.startswith(pre)`. -/
def pyStartsWith (s pre : String) : Bool :=
  pre.data.isPrefixOf s.data

/-- Python `s.endswith(suf)`. -/
def pyEndsWith (s suf : String) : Bool :=
  suf.data.isSuffixOf s.data

/-- Worker for Python `s.split(sep)` with a one-character separator:
split at every occurrence, keeping empty pieces. -/
def splitChar (sep : Char) : List Char → List (List Char)
  | [] => [[]]
  | c :: cs =>
    match splitChar sep cs with
    | [] => [[]]
    | h :: t => if c = sep then [] :: h :: t else (c :: h) :: t

/-- Python `s.split("\n")`. -/
def pySplitNL (s : String) : List String :=
  (splitChar '\n' s.data).map String.mk

/-- Python `"\n".join(lines)`. -/
def joinNL : List String → String
  | [] => ""
  | [s] => s
  | s :: rest => s ++ "\n" ++ joinNL rest

/-- Index of the last occurrence of `c` in `cs` (Python `str.rfind`,
with `none` for -1). -/
def lastIdx (cs : List Char) (c : Char) : Option Nat :=
  match cs.reverse.findIdx? (fun x => x = c) with
  | none => none
  | some i => some (cs.length - 1 - i)

/-- Python `os.path.basename` (posix): everything after the last `/`. -/
def pyBasename (p : String) : String :=
  match lastIdx p.data '/' with
  | none => p
  | some i => String.mk (p.data.drop (i + 1))

/-- Python `os.path.splitext` (posix): split off the extension at the last
dot, provided that dot comes after the last `/` and at least one non-dot
character stands between them (so dotfiles keep their name whole). -/
def pySplitext (p : String) : String × String :=
  let cs := p.data
  let sepIndex : Int := match lastIdx cs '/' with | none => -1 | some i => (i : Int)
  let dotIndex : Int := match lastIdx cs '.' with | none => -1 | some i => (i : Int)
  if sepIndex < dotIndex then
    let between := (cs.take dotIndex.toNat).drop (sepIndex + 1).toNat
    if between.any (fun ch => ch ≠ '.') then
      (String.mk (cs.take dotIndex.toNat), String.mk (cs.drop dotIndex.toNat))
    else (p, "")
  else (p, "")

/-- `get_staged_files` (src/smart_commit.py:6-13): run the list
subprocess, split its stdout on newlines, keep non-empty lines.  The
subprocess exit code is ignored, exactly as in the source; only a raise
from `subprocess.run` itself propagates. -/
def get_staged_files : ProcResult → Except PyError (List String)
  | .raised => .error .fileNotFoundError
  | .ran _ out => .ok ((pySplitNL (pyStrip out)).filter (fun f => f ≠ ""))

/-- `pat` occurs as a contiguous sublist of the second argument
(Python's `in` on strings, over the character lists). -/
def hasInfix (pat : List Char) : List Char → Bool
  | [] => pat.isEmpty
  | c :: cs => pat.isPrefixOf (c :: cs) || hasInfix pat cs

/-- The test predicate of rule 2 (src/smart_commit.py:19):
`"test" in f.lower() or f.startswith("tests")`. -/
def hasTestToken (f : String) : Bool :=
  hasInfix "test".data (pyLower f).data || pyStartsWith f "tests"

/-- `detect_commit_type` (src/smart_commit.py:15-25).  Rules 1 and 2 are
as in the source.  Rule 3 is written in the source as
`any(f.endswith(ext) for ext in [".py", ".js", ".ts", ".cpp", ".h"])`:
the name `f` is not bound by that generator expression (its only loop
variable is `ext`), and no enclosing or module-level binding of `f`
exists, so in Python 3 evaluating the generator's first element raises
`NameError`.  The extension list is non-empty, hence reaching rule 3
always raises; rule 4 (same shape) and rule 5 are unreachable. -/
def detect_commit_type (files : List String) : Except PyError String :=
  if files.all (fun f => pyEndsWith f ".md") then .ok "docs"
  else if files.any hasTestToken then .ok "test"
  else .error .nameError

/-- `generate_summary` (src/smart_commit.py:27-34). -/
def generate_summary (commit_type : String) (files : List String) : String :=
  if files.length = 1 then
    let filename := pyBasename (files.headD "")
    let name_without_ext := (pySplitext filename).1
    commit_type ++ "(" ++ name_without_ext ++ "): update " ++ filename
  else
    commit_type ++ ": update " ++ toString files.length ++ " files"

/-- `generate_body` (src/smart_commit.py:36-39). -/
def generate_body (files : List String) : String :=
  joinNL (files.map (fun f => "- Modified: " ++ f))

/-- What `confirm_message` resolves to: proceed to commit with a
title/body pair, or cancel (the source prints a notice and exits 0). -/
inductive ConfirmRes where
  | proceed (title body : String)
  | canceled
  deriving DecidableEq, Repr

/-- The edit sub-loop (src/smart_commit.py:55-59): read lines until an
empty line; an exhausted stdin raises EOFError.  Returns the collected
lines and the remaining stdin. -/
def collect_lines : List String → Except PyError (List String × List String)
  | [] => .error .eofError
  | line :: rest =>
    if line = "" then .ok ([], rest)
    else
      match collect_lines rest with
      | .error e => .error e
      | .ok (ls, rem) => .ok (line :: ls, rem)

/-- Python `s.split("\n", 1)`: at most one split, at the first newline. -/
def pySplit1 (s : String) : List String :=
  match splitChar '\n' s.data with
  | [] => [s]
  | [x] => [String.mk x]
  | x :: xs => [String.mk x, joinNL (xs.map String.mk)]

/-- The lines `confirm_message` prints before reading the choice
(src/smart_commit.py:43-48). -/
def suggestionPrints (title body : String) : List String :=
  ["\nSuggested commit message:", String.mk (List.replicate 40 '-'),
   title, "", body, String.mk (List.replicate 40 '-')]

/-- `confirm_message` (src/smart_commit.py:41-68), over an explicit
stdin.  Returns the printed lines together with either a raised
exception or the resolution and the unconsumed stdin. -/
def confirm_message (title body : String) (stdin : List String) :
    List String × Except PyError (ConfirmRes × List String) :=
  let prints := suggestionPrints title body
  match stdin with
  | [] => (prints, .error .eofError)
  | c :: rest =>
    let choice := pyLower (pyStrip c)
    if choice = "" || choice = "y" || choice = "yes" then
      (prints, .ok (.proceed title body, rest))
    else if choice = "edit" then
      let prints2 := prints ++ ["\nEnter your custom commit message (end with an empty line):"]
      match collect_lines rest with
      | .error e => (prints2, .error e)
      | .ok (lines, rem) =>
        let full_message := joinNL lines
        let parts := pySplit1 full_message
        (prints2, .ok (.proceed (parts.headD "") (parts.getD 1 ""), rem))
    else
      (prints ++ ["❌ Commit canceled."], .ok (.canceled, rest))

/-- The argv `run_commit` passes to `subprocess.run`
(src/smart_commit.py:72-74): the body is appended as a second `-m`
argument exactly when `body.strip()` is truthy. -/
def run_commit_cmd (title body : String) : List String :=
  let cmd := ["git", "commit", "-m", title]
  if pyStrip body ≠ "" then cmd ++ ["-m", body] else cmd

/-- The line `run_commit` prints after the commit subprocess returns
(src/smart_commit.py:76-79). -/
def run_commit_report (returncode : Int) : String :=
  if returncode = 0 then "✅ Commit created successfully."
  else "❌ Git commit failed."

/-- How a run of the program ends: an exit code (explicit `sys.exit` or
falling off the end of `main`), or an uncaught exception. -/
inductive ExitKind where
  | code (n : Nat)
  | crash (e : PyError)
  deriving DecidableEq, Repr

/-- Observable behaviour of one run: lines printed, the `git commit`
argv if the commit subprocess was invoked, and how the process ended. -/
structure Effects where
  prints : List String
  commit : Option (List String)
  exit : ExitKind
  deriving DecidableEq, Repr

/-- `main` (src/smart_commit.py:81-92) as a function of the environment:
the outcome of the list subprocess, the stdin lines, and the exit code
the commit subprocess would return. -/
def pyMain (git : ProcResult) (stdin : List String) (commitRC : Int) : Effects :=
  match get_staged_files git with
  | .error e => ⟨[], none, .crash e⟩
  | .ok files =>
    if files.isEmpty then
      ⟨["⚠️ No staged changes found. Use 'git add' first."], none, .code 1⟩
    else
      match detect_commit_type files with
      | .error e => ⟨[], none, .crash e⟩
      | .ok commit_type =>
        let title := generate_summary commit_type files
        let body := generate_body files
        match confirm_message title body stdin with
        | (ps, .error e) => ⟨ps, none, .crash e⟩
        | (ps, .ok (.canceled, _)) => ⟨ps, none, .code 0⟩
        | (ps, .ok (.proceed t b, _)) =>
          ⟨ps ++ [run_commit_report commitRC], some (run_commit_cmd t b), .code 0⟩

/-- The simplified three-rule classifier that claim C9 asserts is
observably equivalent to `detect_commit_type`.  Stated from the claim's
words, for comparison: all `.md` → `docs`, any case-insensitive `test`
substring → `test`, any recognized source extension → `feat`,
else `chore`. -/
def simpleClassify (files : List String) : String :=
  if files.all (fun f => pyEndsWith f ".md") then "docs"
  else if files.any (fun f => hasInfix "test".data (pyLower f).data) then "test"
  else if files.any (fun f => [".py", ".js", ".ts", ".cpp", ".h"].any (fun ext => pyEndsWith f ext)) then "feat"
  else "chore"

/- Helper lemmas shared by the claim theorems below. -/

/-- Accepting at the confirm prompt (empty, `y`, or `yes` after strip
and lower) returns the composed title and body unchanged. -/
theorem confirm_accept (t b c : String) (rest : List String)
    (hacc : pyLower (pyStrip c) = "" ∨ pyLower (pyStrip c) = "y" ∨ pyLower (pyStrip c) = "yes") :
    confirm_message t b (c :: rest) = (suggestionPrints t b, .ok (.proceed t b, rest)) := by
  unfold confirm_message
  rcases hacc with h | h | h <;> simp [h]

/-- Any choice that is neither accept nor `edit` lands in the cancel
branch of `confirm_message`. -/
theorem confirm_cancel (t b c : String) (rest : List String)
    (h1 : pyLower (pyStrip c) ≠ "") (h2 : pyLower (pyStrip c) ≠ "y")
    (h3 : pyLower (pyStrip c) ≠ "yes") (h4 : pyLower (pyStrip c) ≠ "edit") :
    confirm_message t b (c :: rest) =
      (suggestionPrints t b ++ ["❌ Commit canceled."], .ok (.canceled, rest)) := by
  unfold confirm_message
  simp [h1, h2, h3, h4]

/-- An edit session whose first line is empty collects no lines and
yields the empty title and empty body. -/
theorem confirm_edit_immediate_empty (t b c : String) (rest : List String)
    (hedit : pyLower (pyStrip c) = "edit") :
    confirm_message t b (c :: "" :: rest) =
      (suggestionPrints t b ++ ["\nEnter your custom commit message (end with an empty line):"],
       .ok (.proceed "" "", rest)) := by
  unfold confirm_message
  simp [hedit, collect_lines, joinNL, pySplit1, splitChar]

/-- Reduction of `pyMain` past the lister, the empty-set guard and the
classifier, for any run in which the lister succeeds with a non-empty
set and the classifier returns a label. -/
theorem pyMain_ok (rc crc : Int) (out : String) (stdin : List String)
    (files : List String) (ct : String)
    (hfiles : get_staged_files (.ran rc out) = .ok files)
    (hne : files ≠ []) (hct : detect_commit_type files = .ok ct) :
    pyMain (.ran rc out) stdin crc =
      (match confirm_message (generate_summary ct files) (generate_body files) stdin with
       | (ps, .error e) => ⟨ps, none, .crash e⟩
       | (ps, .ok (.canceled, _)) => ⟨ps, none, .code 0⟩
       | (ps, .ok (.proceed t b, _)) =>
           ⟨ps ++ [run_commit_report crc], some (run_commit_cmd t b), .code 0⟩) := by
  obtain ⟨a, as, rfl⟩ : ∃ a as, files = a :: as := by
    cases files with
    | nil => exact absurd rfl hne
    | cons a as => exact ⟨a, as, rfl⟩
  unfold pyMain
  rw [hfiles]
  simp only [List.isEmpty_cons, hct]
  rfl

/- Claim theorems. -/

/-- C1: the claim requires that a list operation that cannot be executed
(binary missing, or not inside a repository) is surfaced as a fatal
error, never as an empty `StagedFileSet` indistinguishable from "no
changes staged".  The code violates this: `get_staged_files` ignores
the subprocess exit code, so a run outside a repository (git exits 128
with empty captured stdout) produces exactly the same `.ok []` as a
successful run with nothing staged, and `main` then prints the
no-staged-changes warning and exits 1. -/
theorem not_in_repo_indistinguishable_from_no_staged :
    get_staged_files (.ran 128 "") = .ok [] ∧
    get_staged_files (.ran 0 "") = .ok [] ∧
    pyMain (.ran 128 "") [] 0 =
      ⟨["⚠️ No staged changes found. Use 'git add' first."], none, .code 1⟩ :=
  ⟨rfl, rfl, rfl⟩

/-- C2: any `StagedFileSet` with at least one path carrying a test
token (case-insensitive `test` substring, or a `tests` prefix) that is
not all-documentation classifies as `test`: rule 2 fires before rule 3
is ever evaluated. -/
theorem classify_test_precedes_feat (files : List String)
    (h1 : ∃ f ∈ files, hasInfix "test".data (pyLower f).data = true ∨ pyStartsWith f "tests" = true)
    (h2 : ¬ ∀ f ∈ files, pyEndsWith f ".md" = true) :
    detect_commit_type files = .ok "test" := by
  have hany : files.any hasTestToken = true := by
    obtain ⟨f, hf, htok⟩ := h1
    refine List.any_eq_true.mpr ⟨f, hf, ?_⟩
    unfold hasTestToken
    rcases htok with h | h <;> simp [h]
  have hall : ¬ (files.all (fun f => pyEndsWith f ".md") = true) :=
    fun hc => h2 (List.all_eq_true.mp hc)
  unfold detect_commit_type
  rw [if_neg hall, if_pos hany]

/-- Witness for C2 at a concrete set that also contains a source-code
extension (`main.py`), showing rule 2 precedence. -/
theorem classify_test_precedes_feat_witness :
    detect_commit_type ["tests/test_util.py", "main.py"] = .ok "test" :=
  classify_test_precedes_feat _
    ⟨"tests/test_util.py", by decide, Or.inr (by decide)⟩ (by decide)

/-- C3: for a singleton `StagedFileSet` the title is
`"{type}({basename-without-extension}): update {basename}"`, and in
particular `summarize` on `docs` and `["README.md"]` gives
`"docs(README): update README.md"`. -/
theorem summarize_single_file :
    (∀ ty f, generate_summary ty [f] =
      ty ++ "(" ++ (pySplitext (pyBasename f)).1 ++ "): update " ++ pyBasename f) ∧
    generate_summary "docs" ["README.md"] = "docs(README): update README.md" :=
  ⟨fun _ _ => rfl, rfl⟩

/-- C4: the commit argv always carries the title as the first `-m`
argument, and carries the body as a second `-m` argument exactly when
the body is non-blank after stripping whitespace. -/
theorem run_commit_body_iff_nonblank (t b : String) :
    run_commit_cmd t b =
      (if pyStrip b = "" then ["git", "commit", "-m", t]
       else ["git", "commit", "-m", t, "-m", b]) := by
  unfold run_commit_cmd
  by_cases h : pyStrip b = "" <;> simp [h]

/-- C5: answering the confirm prompt with empty input (or `y`/`yes`)
returns the composed title and body unchanged, and the run then invokes
the commit operation with exactly those values. -/
theorem accept_commits_unchanged (rc crc : Int) (out c : String) (rest : List String)
    (files : List String) (ct : String)
    (hfiles : get_staged_files (.ran rc out) = .ok files)
    (hne : files ≠ []) (hct : detect_commit_type files = .ok ct)
    (hacc : pyLower (pyStrip c) = "" ∨ pyLower (pyStrip c) = "y" ∨ pyLower (pyStrip c) = "yes") :
    (confirm_message (generate_summary ct files) (generate_body files) (c :: rest)).2
        = .ok (.proceed (generate_summary ct files) (generate_body files), rest) ∧
    pyMain (.ran rc out) (c :: rest) crc =
      ⟨suggestionPrints (generate_summary ct files) (generate_body files)
         ++ [run_commit_report crc],
       some (run_commit_cmd (generate_summary ct files) (generate_body files)),
       .code 0⟩ := by
  rw [pyMain_ok rc crc out (c :: rest) files ct hfiles hne hct,
      confirm_accept _ _ _ _ hacc]
  exact ⟨rfl, rfl⟩

/-- Witness for C5: one staged documentation file, prompt answered with
the empty string. -/
theorem accept_commits_unchanged_witness :
    (confirm_message (generate_summary "docs" ["README.md"]) (generate_body ["README.md"]) [""]).2
        = .ok (.proceed (generate_summary "docs" ["README.md"]) (generate_body ["README.md"]), []) ∧
    pyMain (.ran 0 "README.md") [""] 0 =
      ⟨suggestionPrints (generate_summary "docs" ["README.md"]) (generate_body ["README.md"])
         ++ [run_commit_report 0],
       some (run_commit_cmd (generate_summary "docs" ["README.md"]) (generate_body ["README.md"])),
       .code 0⟩ :=
  accept_commits_unchanged 0 0 "README.md" "" [] ["README.md"] "docs"
    rfl (by decide) rfl (Or.inl (by decide))

/-- C6: any confirm-prompt answer that is neither accept (empty, `y`,
`yes`) nor `edit` prints the cancellation notice and ends the process
with exit status 0, without invoking the commit operation. -/
theorem cancel_exits_zero_without_commit (rc crc : Int) (out c : String) (rest : List String)
    (files : List String) (ct : String)
    (hfiles : get_staged_files (.ran rc out) = .ok files)
    (hne : files ≠ []) (hct : detect_commit_type files = .ok ct)
    (h1 : pyLower (pyStrip c) ≠ "") (h2 : pyLower (pyStrip c) ≠ "y")
    (h3 : pyLower (pyStrip c) ≠ "yes") (h4 : pyLower (pyStrip c) ≠ "edit") :
    pyMain (.ran rc out) (c :: rest) crc =
      ⟨suggestionPrints (generate_summary ct files) (generate_body files)
         ++ ["❌ Commit canceled."],
       none, .code 0⟩ := by
  rw [pyMain_ok rc crc out (c :: rest) files ct hfiles hne hct,
      confirm_cancel _ _ _ _ h1 h2 h3 h4]

/-- Witness for C6: one staged documentation file, prompt answered `n`. -/
theorem cancel_exits_zero_without_commit_witness :
    pyMain (.ran 0 "README.md") ["n"] 0 =
      ⟨suggestionPrints (generate_summary "docs" ["README.md"]) (generate_body ["README.md"])
         ++ ["❌ Commit canceled."],
       none, .code 0⟩ :=
  cancel_exits_zero_without_commit 0 0 "README.md" "n" [] ["README.md"] "docs"
    rfl (by decide) rfl (by decide) (by decide) (by decide) (by decide)

/-- C7: an empty `StagedFileSet` from the lister makes the run print
the warning and exit with status 1; no classification, composition or
commit effect occurs (the run's only observable effects are the warning
line, no commit argv, and exit code 1). -/
theorem empty_staged_warns_exit_one (rc crc : Int) (out : String) (stdin : List String)
    (h : get_staged_files (.ran rc out) = .ok []) :
    pyMain (.ran rc out) stdin crc =
      ⟨["⚠️ No staged changes found. Use 'git add' first."], none, .code 1⟩ := by
  unfold pyMain
  rw [h]
  rfl

/-- Witness for C7: empty captured stdout. -/
theorem empty_staged_warns_exit_one_witness :
    pyMain (.ran 0 "") [] 0 =
      ⟨["⚠️ No staged changes found. Use 'git add' first."], none, .code 1⟩ :=
  empty_staged_warns_exit_one 0 0 "" [] rfl

/-- C8: the classifier is defined on the empty set and returns `docs`,
because `all` over an empty sequence is vacuously true. -/
theorem classify_empty_docs : detect_commit_type [] = .ok "docs" := rfl

/-- C9: the claimed equivalence with `simpleClassify` fails, and not
merely on labels: on `["main.py"]` the code raises `NameError`
(rule 3 reads the unbound name `f` inside its generator expression)
while the simplified classifier returns `feat`. -/
theorem classifier_name_error_on_source_files :
    detect_commit_type ["main.py"] = .error .nameError ∧
    simpleClassify ["main.py"] = "feat" :=
  ⟨rfl, rfl⟩

/-- C10: an edit session answered immediately with an empty line
resolves to an empty title and empty body, and the run proceeds to
invoke the commit operation with the empty title and no body argument;
it ends with exit 0 and is not a cancellation. -/
theorem edit_empty_line_commits_empty_title (rc crc : Int) (out c : String) (rest : List String)
    (files : List String) (ct : String)
    (hfiles : get_staged_files (.ran rc out) = .ok files)
    (hne : files ≠ []) (hct : detect_commit_type files = .ok ct)
    (hedit : pyLower (pyStrip c) = "edit") :
    (confirm_message (generate_summary ct files) (generate_body files) (c :: "" :: rest)).2
        = .ok (.proceed "" "", rest) ∧
    pyMain (.ran rc out) (c :: "" :: rest) crc =
      ⟨suggestionPrints (generate_summary ct files) (generate_body files)
         ++ ["\nEnter your custom commit message (end with an empty line):",
             run_commit_report crc],
       some ["git", "commit", "-m", ""], .code 0⟩ := by
  rw [pyMain_ok rc crc out (c :: "" :: rest) files ct hfiles hne hct,
      confirm_edit_immediate_empty _ _ _ _ hedit]
  exact ⟨rfl, by simp [run_commit_cmd, pyStrip]⟩

/-- Witness for C10: one staged documentation file, `edit` then an
empty line. -/
theorem edit_empty_line_commits_empty_title_witness :
    (confirm_message (generate_summary "docs" ["README.md"]) (generate_body ["README.md"])
        ["edit", ""]).2 = .ok (.proceed "" "", []) ∧
    pyMain (.ran 0 "README.md") ["edit", ""] 0 =
      ⟨suggestionPrints (generate_summary "docs" ["README.md"]) (generate_body ["README.md"])
         ++ ["\nEnter your custom commit message (end with an empty line):",
             run_commit_report 0],
       some ["git", "commit", "-m", ""], .code 0⟩ :=
  edit_empty_line_commits_empty_title 0 0 "README.md" "edit" [] ["README.md"] "docs"
    rfl (by decide) rfl (by decide)

end SmartCommit
